import Mathlib

/-!
Verification of the document-ingestion pipeline of the Tuition-master backend.

The embedding follows the source:
* `app/models.py` (StudyMaterial and the referenced tables),
* `app/utils/supabase_storage.py` (upload_file_from_bytes, get_file_url),
* `app/api/documents/router.py` (upload_document, create_embeddings_async,
  get_document_url).

External collaborators (the Supabase client, the AI webhook, uuid generation,
clock) are modelled as environment records; the database is an explicit value
threaded through each operation, and each operation returns a trace recording
its response, the final database, and how many storage/indexing calls it made.
-/

/-! ## Data model (app/models.py) -/

/-- Row of the subjects table (models.py, Subject); only the columns the
documents router reads are carried. -/
structure SubjectRow where
  id : Nat
  name : String
deriving DecidableEq

/-- Row of the classes table (models.py, Class). -/
structure ClassRow where
  id : Nat
  grade : Nat
deriving DecidableEq

/-- Row of the teachers table (models.py, Teacher). -/
structure TeacherRow where
  id : Nat
deriving DecidableEq

/-- Row of the study_materials table with exactly the mapped columns of
models.StudyMaterial (models.py lines 170-189): id, class_id, subject_id,
teacher_id, title, description, file_url, file_type, file_size (timestamps
are server-assigned and omitted).  The model has no public_id column. -/
structure StudyMaterialRow where
  id : Nat
  class_id : Nat
  subject_id : Nat
  teacher_id : Nat
  title : String
  description : Option String
  file_url : String
  file_type : String
  file_size : Option Nat
deriving DecidableEq

/-- The relational state: the four tables the documents router touches. -/
structure DB where
  subjects : List SubjectRow
  classes : List ClassRow
  teachers : List TeacherRow
  study_materials : List StudyMaterialRow
deriving DecidableEq

/-- Names of the mapped columns of models.StudyMaterial (models.py 170-189). -/
def studyMaterialColumns : List String :=
  ["id", "class_id", "subject_id", "teacher_id", "title", "description",
   "file_url", "file_type", "file_size", "upload_date", "created_at", "updated_at"]

/-- Names of the relationship attributes of models.StudyMaterial. -/
def studyMaterialRelationships : List String :=
  ["class_", "subject", "teacher"]

/-- Whether the mapped class models.StudyMaterial has an attribute of the
given name (columns and relationships). -/
def studyMaterialHasAttr (a : String) : Bool :=
  studyMaterialColumns.contains a || studyMaterialRelationships.contains a

/-! ## Base64 decoding (router.py lines 194-228) -/

/-- Splitting a character list at a separator, accumulating the current
piece in reverse. -/
def splitOnCharAux (sep : Char) : List Char → List Char → List (List Char)
  | [], acc => [acc.reverse]
  | c :: cs, acc =>
      if c == sep then acc.reverse :: splitOnCharAux sep cs []
      else splitOnCharAux sep cs (c :: acc)

/-- Python s.split(sep) for a one-character separator. -/
def pySplitChar (sep : Char) (s : String) : List String :=
  (splitOnCharAux sep s.toList []).map String.mk

/-- Joining pieces with a separator (inverse of a limited split). -/
def joinWith (sep : String) : List String → String
  | [] => ""
  | [x] => x
  | x :: y :: xs => x ++ sep ++ joinWith sep (y :: xs)

/-- Python l[-1] with a default for the empty list. -/
def lastD (d : String) : List String → String
  | [] => d
  | [x] => x
  | _ :: y :: xs => lastD d (y :: xs)

/-- Whether the first list is an initial segment of the second. -/
def leadsChars : List Char → List Char → Bool
  | [], _ => true
  | _ :: _, [] => false
  | a :: as, b :: bs => a == b && leadsChars as bs

/-- Python s.startswith(pre). -/
def pyStartsWith (pre s : String) : Bool :=
  leadsChars pre.toList s.toList

/-- Python str.strip character class: space, tab, newline, carriage return,
vertical tab, form feed. -/
def pyIsSpace (c : Char) : Bool :=
  c == ' ' || c == '\t' || c == '\n' || c == '\r' || c == '\x0b' || c == '\x0c'

/-- Python str.strip(): remove leading and trailing whitespace. -/
def pyStrip (s : String) : String :=
  String.mk (((s.toList.dropWhile pyIsSpace).reverse.dropWhile pyIsSpace).reverse)

/-- The replace chain of router.py line 210: delete every newline, carriage
return and space character. -/
def removeB64Ws (s : String) : String :=
  String.mk (s.toList.filter (fun c => !(c == '\n' || c == '\r' || c == ' ')))

/-- Router.py lines 201-207: when the payload starts with a data URI tag,
keep only what follows the first comma; indexing a one-element split raises
(caught as a 400 by the handler).  Otherwise the payload is used as is. -/
def stripDataUri (s : String) : Except String String :=
  if pyStartsWith "data:" s then
    match pySplitChar ',' s with
    | [] => Except.error "IndexError"
    | [_] => Except.error "IndexError: list index out of range"
    | _ :: rest => Except.ok (joinWith "," rest)
  else Except.ok s

/-- Router.py lines 213-217: pad with = so the length is a multiple of 4. -/
def padB64 (s : String) : String :=
  if s.length % 4 == 0 then s
  else s ++ String.mk (List.replicate (4 - s.length % 4) '=')

/-- Membership in the standard base64 alphabet. -/
def isB64Char (c : Char) : Bool :=
  (65 ≤ c.toNat && c.toNat ≤ 90) ||
  (97 ≤ c.toNat && c.toNat ≤ 122) ||
  (48 ≤ c.toNat && c.toNat ≤ 57) ||
  c == '+' || c == '/'

/-- Number of trailing = characters. -/
def trailingEqCount (l : List Char) : Nat :=
  (l.reverse.takeWhile (fun c => c == '=')).length

/-- The characters before the trailing = padding. -/
def b64Body (l : List Char) : List Char :=
  (l.reverse.dropWhile (fun c => c == '=')).reverse

/-- Validity test of base64.b64decode(s, validate=True): every character is
in the alphabet apart from at most two trailing = signs, and the length is a
multiple of 4. -/
def validB64 (s : String) : Bool :=
  s.toList.length % 4 == 0 &&
  trailingEqCount s.toList ≤ 2 &&
  (b64Body s.toList).all isB64Char

/-- base64.b64decode with validate=True, returning the decoded byte count
(the only aspect of the bytes the pipeline observes). -/
def b64decode (s : String) : Except String Nat :=
  if validB64 s then
    Except.ok (3 * (s.toList.length / 4) - trailingEqCount s.toList)
  else Except.error "Invalid base64"

/-- The cleaned and padded base64 text: prefix stripping, strip(), whitespace
removal and padding, in the order of router.py lines 201-217. -/
def processedB64 (fileUrl : String) : Except String String :=
  (stripDataUri fileUrl).map (fun s => padB64 (removeB64Ws (pyStrip s)))

/-- Step 1 of upload_document (router.py 194-228): produce the decoded byte
count or the error the except-block turns into a 400. -/
def decodeBase64Payload (fileUrl : String) : Except String Nat :=
  match processedB64 fileUrl with
  | Except.error e => Except.error e
  | Except.ok t => b64decode t

/-! ## Blob store adapter (app/utils/supabase_storage.py) -/

/-- Environment of the Supabase storage helpers: configuration flags and the
values the external client and uuid4 would produce. -/
structure StoreEnv where
  configured : Bool
  uploadOk : Bool
  existsAlready : Bool
  uniqueId : String
  uniqueId2 : String
  baseUrl : String
  createdAt : String
deriving DecidableEq

/-- Whether the filename contains a dot. -/
def hasDot (filename : String) : Bool :=
  filename.toList.contains '.'

/-- Python filename.split(".")[-1]. -/
def pyLastExt (filename : String) : String :=
  lastD filename (pySplitChar '.' filename)

/-- supabase_storage.py line 57: the extension used in the generated path
(empty when the filename has no dot). -/
def extOrEmpty (filename : String) : String :=
  if hasDot filename then pyLastExt filename else ""

/-- supabase_storage.py line 97: the reported format (unknown when the
filename has no dot). -/
def formatOf (filename : String) : String :=
  if hasDot filename then pyLastExt filename else "unknown"

/-- supabase_storage.py lines 59-62: build folder/uuid.ext, dropping the
empty pieces. -/
def genPath (folder : String) (uid : String) (ext : String) : String :=
  if folder.isEmpty then
    (if ext.isEmpty then uid else uid ++ "." ++ ext)
  else
    (if ext.isEmpty then folder ++ "/" ++ uid
     else folder ++ "/" ++ uid ++ "." ++ ext)

/-- supabase_storage.py lines 48-78 with public_id=None and overwrite=False
(the arguments the router passes): generate the path from a fresh uuid, and
regenerate it when the existence probe reports a collision. -/
def storePath (env : StoreEnv) (filename folder : String) : String :=
  let ext := extOrEmpty filename
  if env.existsAlready then genPath folder env.uniqueId2 ext
  else genPath folder env.uniqueId ext

/-- The success payload of upload_file_from_bytes (supabase_storage.py
lines 93-103). -/
structure StoreUploadOk where
  url : String
  public_id : String
  format : String
  bytes : Nat
  width : Option Nat
  height : Option Nat
  created_at : String
deriving DecidableEq

/-- The dictionary upload_file_from_bytes returns on success. -/
def storeOkResult (env : StoreEnv) (nbytes : Nat) (filename folder : String) :
    StoreUploadOk :=
  let fp := storePath env filename folder
  { url := env.baseUrl ++ fp
    public_id := fp
    format := formatOf filename
    bytes := nbytes
    width := none
    height := none
    created_at := env.createdAt }

/-- upload_file_from_bytes (supabase_storage.py 24-110) as called by the
router (public_id=None, overwrite=False).  A missing configuration or a
rejected upload is caught and surfaced as a failure dictionary, modelled as
the error branch. -/
def upload_file_from_bytes (env : StoreEnv) (nbytes : Nat)
    (filename folder : String) : Except String StoreUploadOk :=
  if env.configured then
    if env.uploadOk then Except.ok (storeOkResult env nbytes filename folder)
    else Except.error "upload failed"
  else Except.error "Supabase URL and Key must be configured in .env file"

/-! ## Indexing trigger (router.py lines 44-164) -/

/-- Possible outcomes of the single webhook POST inside
create_embeddings_async. -/
inductive EmbedOutcome where
  | timeout : EmbedOutcome
  | httpStatus : Nat → String → EmbedOutcome
  | requestErr : String → EmbedOutcome
  | exc : String → EmbedOutcome
  | ok : Bool → String → EmbedOutcome
deriving DecidableEq

/-- What a finished embedding task leaves behind: a log line only. -/
structure EmbedLog where
  succeeded : Bool
  note : String
deriving DecidableEq

/-- create_embeddings_async (router.py 44-118): every outcome of the webhook
call, including timeouts, HTTP errors, transport errors and any other
exception, is caught and logged; the function always terminates normally. -/
def create_embeddings_async (o : EmbedOutcome) : EmbedLog :=
  match o with
  | EmbedOutcome.ok true m => { succeeded := true, note := m }
  | EmbedOutcome.ok false m => { succeeded := false, note := m }
  | EmbedOutcome.timeout => { succeeded := false, note := "TIMEOUT" }
  | EmbedOutcome.httpStatus _ _ => { succeeded := false, note := "HTTP ERROR" }
  | EmbedOutcome.requestErr _ => { succeeded := false, note := "REQUEST ERROR" }
  | EmbedOutcome.exc _ => { succeeded := false, note := "UNEXPECTED ERROR" }

/-- run_embeddings_in_thread (router.py 121-164): runs the async task on a
fresh event loop and swallows any remaining exception. -/
def run_embeddings_in_thread (o : EmbedOutcome) : EmbedLog :=
  create_embeddings_async o

/-! ## The upload endpoint (router.py lines 167-382) -/

/-- Base64UploadRequest (documents/schemas.py). -/
structure UploadReq where
  fileUrl : String
  filename : String
  folder : Option String
  class_id : Nat
  subject_id : Nat
  teacher_id : Nat
  title : String
  description : Option String
deriving DecidableEq

/-- The keyword arguments upload_document passes to models.StudyMaterial
(router.py lines 270-280). -/
structure StudyMaterialKwargs where
  class_id : Nat
  subject_id : Nat
  teacher_id : Nat
  title : String
  description : Option String
  file_url : String
  public_id : String
  file_type : String
  file_size : Nat
deriving DecidableEq

/-- The keyword names of that constructor call, in source order. -/
def studyMaterialKwargNames : List String :=
  ["class_id", "subject_id", "teacher_id", "title", "description",
   "file_url", "public_id", "file_type", "file_size"]

/-- The SQLAlchemy declarative default constructor: it raises TypeError when
any keyword is not an attribute of the mapped class, and otherwise builds the
pending row (the primary key defaults to a fresh uuid). -/
def mkStudyMaterial (freshId : Nat) (kw : StudyMaterialKwargs) :
    Except String StudyMaterialRow :=
  if studyMaterialKwargNames.all studyMaterialHasAttr then
    Except.ok
      { id := freshId
        class_id := kw.class_id
        subject_id := kw.subject_id
        teacher_id := kw.teacher_id
        title := kw.title
        description := kw.description
        file_url := kw.file_url
        file_type := kw.file_type
        file_size := some kw.file_size }
  else Except.error "invalid keyword argument for StudyMaterial"

/-- The foreign-key constraints of study_materials (models.py 174-176 and the
migration): the referenced class, subject and teacher rows must exist for the
commit to succeed. -/
def fkOk (db : DB) (kw : StudyMaterialKwargs) : Bool :=
  db.classes.any (fun c => c.id == kw.class_id) &&
  db.subjects.any (fun s => s.id == kw.subject_id) &&
  db.teachers.any (fun t => t.id == kw.teacher_id)

/-- An HTTPException: status code and detail. -/
structure HttpErr where
  status : Nat
  detail : String
deriving DecidableEq

/-- DocumentUploadResponse (documents/schemas.py). -/
structure DocumentUploadResponse where
  success : Bool
  url : Option String
  public_id : Option String
  format : Option String
  bytes : Option Nat
  width : Option Nat
  height : Option Nat
  created_at : Option String
  study_material_id : Option Nat
deriving DecidableEq

/-- Trace of one call to the upload endpoint: the response (or the
HTTPException), the database afterwards, the number of storage-upload calls,
the number of indexing triggers started, the logs of those triggers, and the
keyword arguments of the attempted StudyMaterial insert, when one was
attempted. -/
structure UploadTrace where
  response : Except HttpErr DocumentUploadResponse
  db : DB
  storageCalls : Nat
  embedCalls : Nat
  embedRuns : List EmbedLog
  attemptedInsert : Option StudyMaterialKwargs

/-- Environment of one upload request: the store, the outcome the detached
webhook call would have, and the id the database generates for the row. -/
structure UploadEnv where
  store : StoreEnv
  embedOutcome : EmbedOutcome
  freshId : Nat

/-- Router.py line 231: request.folder or the canonical default; the Python
or-idiom also replaces an empty string. -/
def uploadFolderOf (req : UploadReq) : String :=
  match req.folder with
  | some f => if f.isEmpty then "tuition_master/documents" else f
  | none => "tuition_master/documents"

/-- The keyword arguments built at router.py lines 270-280 from the request
and the store result; file_type is the constant set at line 261. -/
def kwargsFor (req : UploadReq) (res : StoreUploadOk) : StudyMaterialKwargs :=
  { class_id := req.class_id
    subject_id := req.subject_id
    teacher_id := req.teacher_id
    title := req.title
    description := req.description
    file_url := res.url
    public_id := res.public_id
    file_type := "pdf"
    file_size := res.bytes }

/-- Trace of the 400 taken when base64 decoding fails (router.py 222-228):
no storage call, no database change. -/
def decodeFailTrace (db : DB) (e : String) : UploadTrace :=
  { response := Except.error
      { status := 400, detail := "Invalid base64 encoding: " ++ e }
    db := db
    storageCalls := 0
    embedCalls := 0
    embedRuns := []
    attemptedInsert := none }

/-- Trace of the 500 taken when the store rejects the upload
(router.py 244-249): one storage call, no database change. -/
def storeFailTrace (db : DB) (e : String) : UploadTrace :=
  { response := Except.error
      { status := 500, detail := "Failed to upload file: " ++ e }
    db := db
    storageCalls := 1
    embedCalls := 0
    embedRuns := []
    attemptedInsert := none }

/-- Continuation of upload_document after a successful store upload
(router.py lines 258-382): set file_extension, construct and insert the
StudyMaterial row, conditionally start the detached indexing thread, and
build the response.  A raising constructor or commit lands in the outer
except-block: rollback and HTTP 500. -/
def afterStore (env : UploadEnv) (db : DB) (req : UploadReq)
    (res : StoreUploadOk) : UploadTrace :=
  let kw := kwargsFor req res
  match mkStudyMaterial env.freshId kw with
  | Except.error e =>
      { response := Except.error
          { status := 500, detail := "Error uploading file: " ++ e }
        db := db
        storageCalls := 1
        embedCalls := 0
        embedRuns := []
        attemptedInsert := some kw }
  | Except.ok row =>
      if fkOk db kw then
        let db1 : DB := { db with study_materials := db.study_materials ++ [row] }
        let subj := db1.subjects.find? (fun s => s.id == req.subject_id)
        let cls := db1.classes.find? (fun c => c.id == req.class_id)
        let doEmbed := subj.isSome && cls.isSome
        { response := Except.ok
            { success := true
              url := some res.url
              public_id := some res.public_id
              format := some res.format
              bytes := some res.bytes
              width := res.width
              height := res.height
              created_at := some res.created_at
              study_material_id := some env.freshId }
          db := db1
          storageCalls := 1
          embedCalls := if doEmbed then 1 else 0
          embedRuns :=
            if doEmbed then [run_embeddings_in_thread env.embedOutcome] else []
          attemptedInsert := some kw }
      else
        { response := Except.error
            { status := 500, detail := "Error uploading file: IntegrityError" }
          db := db
          storageCalls := 1
          embedCalls := 0
          embedRuns := []
          attemptedInsert := some kw }

/-- upload_document (router.py 172-382): decode, upload, persist, trigger,
respond. -/
def upload_document (env : UploadEnv) (db : DB) (req : UploadReq) :
    UploadTrace :=
  match decodeBase64Payload req.fileUrl with
  | Except.error e => decodeFailTrace db e
  | Except.ok nbytes =>
      match upload_file_from_bytes env.store nbytes req.filename
          (uploadFolderOf req) with
      | Except.error e => storeFailTrace db e
      | Except.ok res => afterStore env db req res

/-! ## The resolve-URL endpoint (router.py lines 546-649) -/

/-- Python s.split(sep)[0]. -/
def pySplitBefore (sep : Char) (s : String) : String :=
  (pySplitChar sep s).headD s

/-- The query cleanup of router.py line 572: split at ampersand, split at
question mark, strip. -/
def cleanQuery (s : String) : String :=
  pyStrip (pySplitBefore '?' (pySplitBefore '&' s))

/-- Environment of the resolve endpoint: configuration flag and the public
URL the store derives from a path (get_file_url, supabase_storage.py
146-171). -/
structure ResolveEnv where
  configured : Bool
  genUrl : String → String

/-- DocumentURLResponse (documents/schemas.py). -/
structure DocumentURLResponse where
  url : String
  public_id : String
deriving DecidableEq

/-- Trace of one call to the resolve endpoint: response and number of
get_file_url calls. -/
structure ResolveTrace where
  response : Except HttpErr DocumentURLResponse
  genCalls : Nat

/-- get_document_url (router.py 551-649).  Building the database filter
evaluates models.StudyMaterial.public_id; models.StudyMaterial (models.py
170-189) has no such attribute, so the lookup raises AttributeError, which
the generic except-block turns into an HTTP 500.  The then-branch carries
the translation of the code that would run if the attribute existed: since
no study_materials row carries a storage key, the match set would be empty
and control would fall through to URL generation and its validation
(router.py 601-640). -/
def get_document_url (env : ResolveEnv) (db : DB) (public_id : String) :
    ResolveTrace :=
  let clean_public_id := cleanQuery public_id
  if studyMaterialHasAttr "public_id" then
    if env.configured then
      let url := env.genUrl clean_public_id
      let clean_url := cleanQuery (String.mk
        ((url.toList.reverse.dropWhile (fun c => c == '?')).reverse))
      if clean_url.isEmpty || !(pyStartsWith "http" clean_url) then
        { response := Except.error
            { status := 500, detail := "Invalid Supabase Storage configuration" }
          genCalls := 1 }
      else
        { response := Except.ok { url := clean_url, public_id := clean_public_id }
          genCalls := 1 }
    else
      { response := Except.error
          { status := 500, detail := "Supabase URL and Key must be configured" }
        genCalls := 0 }
  else
    { response := Except.error
        { status := 500
          detail := "Error getting file URL: AttributeError: public_id" }
      genCalls := 0 }

/-! ## Specification-side definition for the file-type claim -/

/-- Modelled from the spec: the fixed MIME-to-extension table of resolution
clause (c) in section 4.1 step 2, matching the extension table of
supabase_storage.py. -/
def mimeExtTable : List (String × String) :=
  [("application/pdf", "pdf"), ("image/jpeg", "jpg"), ("image/png", "png"),
   ("image/gif", "gif"), ("video/mp4", "mp4"), ("text/plain", "txt")]

/-- Lookup in that table. -/
def mimeToExt (m : String) : Option String :=
  (mimeExtTable.find? (fun p => p.fst == m)).map (fun p => p.snd)

/-- Modelled from the spec (section 4.1 step 2): the claimed file-type
resolution priority: (a) extension from the literal filename, (b) the
store-reported format, (c) the data-URI MIME type through the fixed table,
(d) unknown. -/
def specResolveFileType (filename : String) (storeFormat : Option String)
    (mime : Option String) : String :=
  if hasDot filename then pyLastExt filename
  else
    match storeFormat with
    | some f => f
    | none =>
        match mime with
        | some m => (mimeToExt m).getD "unknown"
        | none => "unknown"

/-! ## Helpers for stating the claims -/

/-- Whether an operation result is a success. -/
def resultOk {e a : Type} : Except e a → Bool
  | Except.ok _ => true
  | Except.error _ => false

/-- The HTTP status of an error result. -/
def errStatus {a : Type} : Except HttpErr a → Option Nat
  | Except.ok _ => none
  | Except.error e => some e.status

/-! ## Concrete scenario used by witnesses and counterexamples -/

/-- A database holding one subject, one class and one teacher. -/
def demoDB : DB :=
  { subjects := [{ id := 5, name := "Math" }]
    classes := [{ id := 7, grade := 3 }]
    teachers := [{ id := 9 }]
    study_materials := [] }

/-- A configured store that accepts the upload. -/
def demoStore : StoreEnv :=
  { configured := true
    uploadOk := true
    existsAlready := false
    uniqueId := "u1"
    uniqueId2 := "u2"
    baseUrl := "https://supa.example/"
    createdAt := "t0" }

/-- Environment with a succeeding store and a succeeding webhook. -/
def demoEnv : UploadEnv :=
  { store := demoStore
    embedOutcome := EmbedOutcome.ok true "done"
    freshId := 1 }

/-- A well-formed upload request with a pdf filename, valid base64 and
foreign keys that exist in demoDB. -/
def demoReq : UploadReq :=
  { fileUrl := "AAAA"
    filename := "x.pdf"
    folder := none
    class_id := 7
    subject_id := 5
    teacher_id := 9
    title := "T"
    description := none }

/-- The keyword arguments the router builds for demoReq in demoEnv. -/
def demoKw : StudyMaterialKwargs :=
  { class_id := 7
    subject_id := 5
    teacher_id := 9
    title := "T"
    description := none
    file_url := "https://supa.example/tuition_master/documents/u1.pdf"
    public_id := "tuition_master/documents/u1.pdf"
    file_type := "pdf"
    file_size := 3 }

/-! ## Helper lemmas -/

/-- The constructor call of router.py line 270 always raises: its keyword
public_id is not an attribute of models.StudyMaterial. -/
theorem mkStudyMaterial_raises (freshId : Nat) (kw : StudyMaterialKwargs) :
    mkStudyMaterial freshId kw =
      Except.error "invalid keyword argument for StudyMaterial" := by
  have h : studyMaterialKwargNames.all studyMaterialHasAttr = false := by decide
  unfold mkStudyMaterial
  simp [h]

/-- After a successful store upload, the handler always lands in the outer
except-block with the TypeError: rollback, one storage call, HTTP 500. -/
theorem afterStore_result (env : UploadEnv) (db : DB) (req : UploadReq)
    (res : StoreUploadOk) :
    afterStore env db req res =
      { response := Except.error
          { status := 500
            detail :=
              "Error uploading file: invalid keyword argument for StudyMaterial" }
        db := db
        storageCalls := 1
        embedCalls := 0
        embedRuns := []
        attemptedInsert := some (kwargsFor req res) } := by
  unfold afterStore
  simp only [mkStudyMaterial_raises]
  rfl

/-- A configured store that accepts the upload returns the success payload. -/
theorem store_accepts (env : StoreEnv) (nbytes : Nat) (filename folder : String)
    (h1 : env.configured = true) (h2 : env.uploadOk = true) :
    upload_file_from_bytes env nbytes filename folder =
      Except.ok (storeOkResult env nbytes filename folder) := by
  unfold upload_file_from_bytes
  rw [h1, h2]
  simp

/-- A character that is outside the base64 alphabet and is not a padding sign
makes the strict validation fail. -/
theorem validB64_false_of_bad_char (s : String) (c : Char)
    (hc : c ∈ s.toList) (h1 : isB64Char c = false) (h2 : c ≠ '=') :
    validB64 s = false := by
  cases hv : validB64 s
  · rfl
  · exfalso
    unfold validB64 at hv
    simp only [Bool.and_eq_true, decide_eq_true_eq] at hv
    obtain ⟨⟨-, -⟩, hall⟩ := hv
    have hrev : c ∈ s.toList.reverse := List.mem_reverse.mpr hc
    rw [← List.takeWhile_append_dropWhile (p := fun x => x == '=')
      (l := s.toList.reverse)] at hrev
    rcases List.mem_append.mp hrev with htk | hdp
    · exact h2 (by simpa using List.mem_takeWhile_imp htk)
    · have hmem : c ∈ b64Body s.toList := by
        unfold b64Body
        exact List.mem_reverse.mpr hdp
      have := List.all_eq_true.mp hall c hmem
      simp [h1] at this

/-- Every code path of upload_document, as one case split. -/
theorem upload_document_cases (env : UploadEnv) (db : DB) (req : UploadReq) :
    upload_document env db req =
      match decodeBase64Payload req.fileUrl with
      | Except.error e => decodeFailTrace db e
      | Except.ok nbytes =>
          match upload_file_from_bytes env.store nbytes req.filename
              (uploadFolderOf req) with
          | Except.error e => storeFailTrace db e
          | Except.ok res =>
              { response := Except.error
                  { status := 500
                    detail :=
                      "Error uploading file: invalid keyword argument for StudyMaterial" }
                db := db
                storageCalls := 1
                embedCalls := 0
                embedRuns := []
                attemptedInsert := some (kwargsFor req res) } := by
  generalize hd : decodeBase64Payload req.fileUrl = d
  unfold upload_document
  rw [hd]
  cases d with
  | error e => rfl
  | ok nbytes =>
      dsimp only
      generalize hu : upload_file_from_bytes env.store nbytes req.filename
          (uploadFolderOf req) = u
      cases u with
      | error e => rfl
      | ok res =>
          dsimp only
          exact afterStore_result env db req res

/-! ## Further concrete scenarios -/

/-- The demo request with a docx filename. -/
def docxReq : UploadReq := { demoReq with filename := "notes.docx" }

/-- The demo request pointing at a teacher id that has no row. -/
def badTeacherReq : UploadReq := { demoReq with teacher_id := 99 }

/-- The demo request with a payload containing a character outside the
base64 alphabet. -/
def badB64Req : UploadReq := { demoReq with fileUrl := "AB$C" }

/-- The demo request with a png filename. -/
def pngReq : UploadReq := { demoReq with filename := "image.png" }

/-- A configured resolve environment whose store derives URLs from paths. -/
def demoResolveEnv : ResolveEnv :=
  { configured := true
    genUrl := fun p => "https://supa.example/storage/" ++ p }

/-! ## The claims -/

/-- C1: the claimed invariant is that every successful ingestion persists a
StudyMaterial row with file_url and public_id set together by one insert.
On the code no such row can exist: models.StudyMaterial has no public_id
attribute, so the very insert that would set both fields raises TypeError.
Evaluated on a well-formed request against a configured accepting store:
the keyword arguments do carry both file_url and public_id, yet the endpoint
answers HTTP 500, the table stays empty, and the storage upload has already
happened. -/
theorem C1_upload_with_public_id_always_raises :
    errStatus (upload_document demoEnv demoDB demoReq).response = some 500 ∧
    (upload_document demoEnv demoDB demoReq).attemptedInsert = some demoKw ∧
    (upload_document demoEnv demoDB demoReq).db.study_materials = [] ∧
    (upload_document demoEnv demoDB demoReq).storageCalls = 1 :=
  ⟨rfl, by decide, rfl, rfl⟩

/-- C2: the claim allows two outcomes for valid inputs: success with a
matching persisted row, or failure with no row.  On the code only the second
alternative is realizable: no call to the ingest endpoint ever returns
success (the StudyMaterial constructor raises on the public_id keyword
before any row can be added) and the database is always left unchanged. -/
theorem C2_ingest_never_succeeds_and_never_writes (env : UploadEnv) (db : DB)
    (req : UploadReq) :
    resultOk (upload_document env db req).response = false ∧
    (upload_document env db req).db = db := by
  rw [upload_document_cases]
  generalize decodeBase64Payload req.fileUrl = d
  cases d with
  | error e => exact ⟨rfl, rfl⟩
  | ok nbytes =>
      dsimp only
      generalize upload_file_from_bytes env.store nbytes req.filename
          (uploadFolderOf req) = u
      cases u with
      | error e => exact ⟨rfl, rfl⟩
      | ok res => exact ⟨rfl, rfl⟩

/-- C3 counterexample: for the filename notes.docx the claimed resolution
priority yields docx (clause a, extension of the literal filename), but the
file type the code hands to the StudyMaterial constructor is the constant
pdf (router.py line 261). -/
theorem C3_counterexample :
    specResolveFileType "notes.docx" (some "docx") none = "docx" ∧
    ((upload_document demoEnv demoDB docxReq).attemptedInsert.map
      (fun kw => kw.file_type)) = some "pdf" ∧
    ("docx" : String) ≠ "pdf" :=
  ⟨by decide, by decide, by decide⟩

/-- C3 (amended): for every ingestion request, the file_type carried by the
attempted StudyMaterial insert is the constant pdf, regardless of the
filename, the store-reported format, and any data-URI prefix. -/
theorem C3_file_type_is_always_pdf (env : UploadEnv) (db : DB)
    (req : UploadReq) (kw : StudyMaterialKwargs)
    (h : (upload_document env db req).attemptedInsert = some kw) :
    kw.file_type = "pdf" := by
  rw [upload_document_cases] at h
  split at h
  · simp [decodeFailTrace] at h
  · split at h
    · simp [storeFailTrace] at h
    · simp only [Option.some.injEq] at h
      rw [← h]
      rfl

/-- C3 witness: the amended theorem applied to the demo request. -/
theorem C3_file_type_witness :
    (upload_document demoEnv demoDB demoReq).attemptedInsert = some demoKw ∧
    demoKw.file_type = "pdf" :=
  ⟨by decide, C3_file_type_is_always_pdf demoEnv demoDB demoReq demoKw (by decide)⟩

/-- C4 counterexample: a request whose teacher_id references no teacher row
still causes one storage-upload call and fails with HTTP 500 — not the
claimed 4xx client error with zero storage calls. -/
theorem C4_counterexample :
    (demoDB.teachers.any (fun t => t.id == badTeacherReq.teacher_id)) = false ∧
    (upload_document demoEnv demoDB badTeacherReq).storageCalls = 1 ∧
    errStatus (upload_document demoEnv demoDB badTeacherReq).response = some 500 :=
  ⟨rfl, rfl, rfl⟩

/-- C4 (amended): a request whose class, subject or teacher reference
resolves to no row is not rejected before side effects: when the payload
decodes and the store accepts, exactly one storage-upload call is made, the
insert fails, the transaction is rolled back (no row written) and the
endpoint returns HTTP 500. -/
theorem C4_missing_reference_uploads_then_500 (env : UploadEnv) (db : DB)
    (req : UploadReq) (nbytes : Nat)
    (hd : decodeBase64Payload req.fileUrl = Except.ok nbytes)
    (hc : env.store.configured = true) (hu : env.store.uploadOk = true)
    (hmiss : db.classes.any (fun c => c.id == req.class_id) = false ∨
             db.subjects.any (fun s => s.id == req.subject_id) = false ∨
             db.teachers.any (fun t => t.id == req.teacher_id) = false) :
    (upload_document env db req).storageCalls = 1 ∧
    errStatus (upload_document env db req).response = some 500 ∧
    (upload_document env db req).db = db := by
  rw [upload_document_cases, hd]
  dsimp only
  rw [store_accepts env.store nbytes req.filename (uploadFolderOf req) hc hu]
  exact ⟨rfl, rfl, rfl⟩

/-- C4 witness: the amended theorem applied to the missing-teacher request. -/
theorem C4_missing_reference_witness :
    (upload_document demoEnv demoDB badTeacherReq).storageCalls = 1 ∧
    errStatus (upload_document demoEnv demoDB badTeacherReq).response = some 500 ∧
    (upload_document demoEnv demoDB badTeacherReq).db = demoDB :=
  C4_missing_reference_uploads_then_500 demoEnv demoDB badTeacherReq 3 rfl rfl rfl
    (Or.inr (Or.inr (by decide)))

/-- C5: a payload that still contains a character outside the base64
alphabet (other than padding) after prefix stripping, whitespace removal and
padding is rejected with HTTP 400 before any storage or database call:
zero storage-upload calls, zero indexing calls, database unchanged. -/
theorem C5_malformed_base64_rejected_early (env : UploadEnv) (db : DB)
    (req : UploadReq) (t : String) (c : Char)
    (hp : processedB64 req.fileUrl = Except.ok t)
    (hc : c ∈ t.toList) (h1 : isB64Char c = false) (h2 : c ≠ '=') :
    errStatus (upload_document env db req).response = some 400 ∧
    (upload_document env db req).storageCalls = 0 ∧
    (upload_document env db req).embedCalls = 0 ∧
    (upload_document env db req).db = db := by
  have hv : validB64 t = false := validB64_false_of_bad_char t c hc h1 h2
  have hd : decodeBase64Payload req.fileUrl = Except.error "Invalid base64" := by
    unfold decodeBase64Payload
    rw [hp]
    dsimp only
    unfold b64decode
    rw [hv]
    rfl
  rw [upload_document_cases, hd]
  exact ⟨rfl, rfl, rfl, rfl⟩

/-- C5 witness: the dollar character survives processing of the payload of
badB64Req and is outside the alphabet, so the request is rejected with 400
and no storage, indexing or database effect. -/
theorem C5_malformed_base64_witness :
    (processedB64 badB64Req.fileUrl = Except.ok "AB$C") ∧
    (errStatus (upload_document demoEnv demoDB badB64Req).response = some 400 ∧
     (upload_document demoEnv demoDB badB64Req).storageCalls = 0 ∧
     (upload_document demoEnv demoDB badB64Req).embedCalls = 0 ∧
     (upload_document demoEnv demoDB badB64Req).db = demoDB) :=
  ⟨rfl, C5_malformed_base64_rejected_early demoEnv demoDB badB64Req "AB$C" '$'
     rfl (by decide) (by decide) (by decide)⟩

/-- C6: the claim is that indexing triggers exactly when the resolved type
is pdf and both lookups succeed.  Here every condition of the claim holds —
pdf filename, subject 5 and class 7 both present — yet zero indexing calls
occur and the request fails with an error, because the handler raises at the
StudyMaterial constructor (router.py line 270) before the trigger step
(router.py 297-338) can run. -/
theorem C6_trigger_unreachable :
    (demoDB.subjects.any (fun s => s.id == demoReq.subject_id)) = true ∧
    (demoDB.classes.any (fun c => c.id == demoReq.class_id)) = true ∧
    (upload_document demoEnv demoDB demoReq).embedCalls = 0 ∧
    (upload_document demoEnv demoDB demoReq).embedRuns = [] ∧
    resultOk (upload_document demoEnv demoDB demoReq).response = false :=
  ⟨rfl, rfl, rfl, rfl, rfl⟩

/-- C7: the outcome of the detached indexing call — timeout, non-2xx
response, transport failure, any other exception, or success — never changes
the ingest response: for any two webhook outcomes the endpoint produces the
same response on the same store, state and request. -/
theorem C7_embed_outcome_never_changes_response (store : StoreEnv)
    (freshId : Nat) (o1 o2 : EmbedOutcome) (db : DB) (req : UploadReq) :
    (upload_document { store := store, embedOutcome := o1, freshId := freshId }
        db req).response =
    (upload_document { store := store, embedOutcome := o2, freshId := freshId }
        db req).response := by
  rw [upload_document_cases, upload_document_cases]

/-- C8: the claim is that resolve prefers the database-recorded URL and asks
the store only as a fallback.  On the code, building the filter evaluates
models.StudyMaterial.public_id, which does not exist, so every resolve
request — whatever the database holds — answers HTTP 500 and never asks the
store to generate a URL; a row carrying a recorded storage key cannot even
exist (models.py 170-189). -/
theorem C8_resolve_always_500 (env : ResolveEnv) (db : DB)
    (public_id : String) :
    errStatus (get_document_url env db public_id).response = some 500 ∧
    (get_document_url env db public_id).genCalls = 0 :=
  ⟨rfl, rfl⟩

/-- C9: the claim is that both resolve paths strip and validate the URL and
that an empty or malformed result yields a NotFoundError.  On the code this
concrete request yields HTTP 500, not 404, returns no URL at all and makes
no store call; in the source text only the generation path validates
(router.py 622-628) and its failure is also a 500. -/
theorem C9_no_notfound_and_no_validation :
    errStatus (get_document_url demoResolveEnv demoDB
      "tuition_master/documents/u1.pdf").response = some 500 ∧
    errStatus (get_document_url demoResolveEnv demoDB
      "tuition_master/documents/u1.pdf").response ≠ some 404 ∧
    (get_document_url demoResolveEnv demoDB
      "tuition_master/documents/u1.pdf").genCalls = 0 :=
  ⟨rfl, by decide, rfl⟩

/-- C10: the divergence the claim describes is present in the source — the
store reports the extension after the last dot of the filename while the
router persists the constant pdf — but its premise, a successful response,
is never realized: on this png request the store result carries format png,
the attempted insert carries file_type pdf, and the endpoint fails with
HTTP 500, so response format and persisted file_type never coexist. -/
theorem C10_format_vs_file_type_but_no_success :
    upload_file_from_bytes demoStore 3 "image.png" "tuition_master/documents" =
      Except.ok (storeOkResult demoStore 3 "image.png" "tuition_master/documents") ∧
    (storeOkResult demoStore 3 "image.png" "tuition_master/documents").format = "png" ∧
    ((upload_document demoEnv demoDB pngReq).attemptedInsert.map
      (fun kw => kw.file_type)) = some "pdf" ∧
    resultOk (upload_document demoEnv demoDB pngReq).response = false ∧
    errStatus (upload_document demoEnv demoDB pngReq).response = some 500 :=
  ⟨store_accepts demoStore 3 "image.png" "tuition_master/documents" rfl rfl,
   by decide, by decide, by decide, by decide⟩
